import Mathlib

/-!
# clai: configuration resolution and stdin/argument merging

A shallow embedding of `internal/setup.go`:

* `returnNonDefault`  the mutual-exclusion helper,
* `defaultFlags`, `Setup`  the precedence resolution flag > config file > default,
* `parseArgsStdin`  the merging of piped standard input into the arguments.

Go strings are embedded as Lean `String`s (sequences of runes); on valid UTF-8
a byte-wise substring search agrees with a rune-wise one. The process-global
reads (environment, `flag.Args()`, standard input, build info) are explicit
parameters, and the effects (`ancli.PrintOK`, `ancli.PrintErr`, `fmt.Print`,
`os.Exit`, `panic`) are recorded in the returned `Run`.
-/

namespace Clai

/-! ## Go standard library: `strings.Contains`, `strings.Split`, `strings.ReplaceAll` -/

/-- Go `strings.HasPrefix` on rune lists. -/
def hasPrefixL : List Char → List Char → Bool
  | _, [] => true
  | [], _ :: _ => false
  | c :: cs, d :: ds => decide (c = d) && hasPrefixL cs ds

/-- Go `strings.Contains(s, substr)` on rune lists: `substr` occurs at some
position of `s` (the empty `substr` occurs in every string). -/
def containsL : List Char → List Char → Bool
  | [], sub => hasPrefixL [] sub
  | c :: cs, sub => hasPrefixL (c :: cs) sub || containsL cs sub

/-- The pieces of `strings.Split(s, sep)` for a non-empty `sep`, scanning left
to right: `skip` counts the runes of a separator occurrence still to be
dropped, `cur` is the piece being collected (reversed). -/
def splitGo (sep : List Char) : Nat → List Char → List Char → List (List Char)
  | _, cur, [] => [cur.reverse]
  | skip + 1, cur, _ :: cs => splitGo sep skip cur cs
  | 0, cur, c :: cs =>
    if hasPrefixL (c :: cs) sep then cur.reverse :: splitGo sep (sep.length - 1) [] cs
    else splitGo sep 0 (c :: cur) cs

/-- Go `strings.Split(s, sep)` on rune lists. With an empty `sep` Go explodes
the string into its runes (and into no piece at all when `s` is empty). -/
def splitL (s sep : List Char) : List (List Char) :=
  if sep = [] then s.map (fun c => [c]) else splitGo sep 0 [] s

/-- The body of `strings.ReplaceAll` for a non-empty `old`: the leftmost
occurrence is replaced, the scan resumes right after it (`skip` counts the
runes of the occurrence still to be dropped). -/
def replaceGo (old new : List Char) : Nat → List Char → List Char
  | _, [] => []
  | skip + 1, _ :: cs => replaceGo old new skip cs
  | 0, c :: cs =>
    if hasPrefixL (c :: cs) old then new ++ replaceGo old new (old.length - 1) cs
    else c :: replaceGo old new 0 cs

/-- The body of `strings.ReplaceAll` for the empty `old`: after the first
match at the start of the string, every rune is written followed by `new`. -/
def replaceEmptyGo (new : List Char) : List Char → List Char
  | [] => []
  | c :: cs => c :: (new ++ replaceEmptyGo new cs)

/-- Go `strings.ReplaceAll(s, old, new)` on rune lists: `s` itself when
`old == new`; for the empty `old` a match at the beginning and after each rune;
otherwise all non-overlapping occurrences of `old`, leftmost first. -/
def replaceAllL (s old new : List Char) : List Char :=
  if old = new then s
  else if old = [] then new ++ replaceEmptyGo new s
  else replaceGo old new 0 s

/-- Go `strings.Contains`. -/
def Contains (s substr : String) : Bool := containsL s.data substr.data

/-- Go `strings.Split`. -/
def Split (s sep : String) : List String := (splitL s.data sep.data).map String.mk

/-- Go `strings.ReplaceAll`. -/
def ReplaceAll (s old new : String) : String := ⟨replaceAllL s.data old.data new.data⟩

/-! ## `returnNonDefault` -/

/-- Source `returnNonDefault[T comparable](a, b, defaultVal T) (T, error)`;
the Go `error` is `none` for `nil` and `some msg` otherwise. -/
def returnNonDefault {T : Type} [DecidableEq T] (a b defaultVal : T) : T × Option String :=
  if a ≠ defaultVal ∧ b ≠ defaultVal then
    (defaultVal, some "values are mutually exclusive")
  else if a ≠ defaultVal then
    (a, none)
  else if b ≠ defaultVal then
    (b, none)
  else
    (defaultVal, none)

/-! ## Effects -/

/-- One observable output action of the program, in program order. -/
inductive Event where
  /-- A call `ancli.PrintOK(msg)`: the message, tagged `ok`, goes to standard
  output. -/
  | printOK (msg : String)
  /-- A call `ancli.PrintErr(msg)`: the message, tagged `error`, goes to
  standard error. -/
  | printErr (msg : String)
  /-- A call `fmt.Print(s)` / `fmt.Printf(...)`: the text goes to standard
  output. -/
  | print (s : String)
  deriving DecidableEq

/-- How a Go function call ends: it returns a value, the process terminates
through `os.Exit(code)`, or it aborts through `panic(err)`. -/
inductive Outcome (α : Type) where
  | ret (a : α)
  | exit (code : Nat)
  | panicked (err : String)
  deriving DecidableEq

/-- The output actions of a call, in order, and how the call ended. -/
structure Run (α : Type) where
  trace : List Event
  outcome : Outcome α
  deriving DecidableEq

/-- The writes to standard output, in order: the diagnostics of
`ancli.PrintOK` and the texts of `fmt.Print`/`fmt.Printf`; the messages of
`ancli.PrintErr` go to standard error and are left out. -/
def Run.stdout {α : Type} (r : Run α) : List Event :=
  r.trace.filter (fun e => match e with
    | Event.printErr _ => false
    | _ => true)

/-- The texts of the `fmt.Print`/`fmt.Printf` calls alone, in order. This is
not all of standard output: the diagnostics of `ancli.PrintOK` are part of
`Run.stdout` only. -/
def Run.printed {α : Type} (r : Run α) : List String :=
  r.trace.filterMap (fun e => match e with
    | Event.print s => some s
    | _ => none)

/-- The messages passed to `ancli.PrintErr`, in order. -/
def Run.errors {α : Type} (r : Run α) : List String :=
  r.trace.filterMap (fun e => match e with
    | Event.printErr s => some s
    | _ => none)

/-! ## Process state read by the code -/

/-- The fields of `debug.BuildInfo` that the version branch prints. -/
structure BuildInfo where
  MainVersion : String
  GoVersion : String
  MainSum : String
  deriving DecidableEq

/-- The process-global state that `Setup` and `parseArgsStdin` read. -/
structure Proc where
  /-- Value of `os.Getenv("HOME")`. -/
  HOME : String
  /-- Value of `os.Getenv("OPENAI_API_KEY")`. -/
  OPENAI_API_KEY : String
  /-- Value of `misc.Truthy(os.Getenv("DEBUG"))`. -/
  DEBUG : Bool
  /-- Result `(home, err)` of `os.UserHomeDir()`. -/
  UserHomeDir : String × Option String
  /-- Value of `flag.Args()`: the non-flag command-line arguments. -/
  Args : List String
  /-- Result of `os.Stdin.Stat()`: the error, or whether
  `fi.Mode()&os.ModeNamedPipe` is non-zero. -/
  StdinStat : Except String Bool
  /-- Result `(data, err)` of `io.ReadAll(os.Stdin)`. -/
  StdinReadAll : String × Option String
  /-- Result of `debug.ReadBuildInfo()`: `none` when `ok` is false. -/
  ReadBuildInfo : Option BuildInfo

/-! ## Data model -/

/-- The `flagSet` struct, with the fields of the `defaultFlags` literal. -/
structure flagSet where
  chatModel : String
  photoModel : String
  picturePrefix : String
  pictureDir : String
  stdinReplace : String
  printRaw : Bool
  replyMode : Bool
  deriving DecidableEq

/-- The zero-value `http.Client{}` that both descriptors point to. -/
structure HttpClient where
  deriving DecidableEq

/-- The fields of `ChatModelQuerier` that `Setup` reads or writes. -/
structure ChatModelQuerier where
  Model : String := ""
  SystemPrompt : String := ""
  Raw : Bool := false
  Url : String := ""
  ReplyMode : Bool := false
  home : String := ""
  client : Option HttpClient := none
  deriving DecidableEq

/-- The fields of `PhotoQuerier` that `Setup` reads or writes. -/
structure PhotoQuerier where
  Model : String := ""
  PhotoDir : String := ""
  PhotoPrefix : String := ""
  PromptFormat : String := ""
  url : String := ""
  raw : Bool := false
  client : Option HttpClient := none
  deriving DecidableEq

/-- Source `var defaultFlags`; `HOME` is the value of `os.Getenv("HOME")`. -/
def defaultFlags (HOME : String) : flagSet where
  chatModel := "gpt-4-turbo-preview"
  photoModel := "dall-e-3"
  picturePrefix := "clai"
  pictureDir := HOME ++ "/Pictures"
  stdinReplace := ""
  printRaw := false
  replyMode := false

/-! ## `parseArgsStdin` -/

/-- The rendering `%v` of a `[]string`: the elements separated by blanks,
in square brackets. -/
def fmtStrings (xs : List String) : String := "[" ++ " ".intercalate xs ++ "]"

/-- The diagnostic echo `ancli.PrintOK(msg)` guarded by
`misc.Truthy(os.Getenv("DEBUG"))`. -/
def debugEcho (DEBUG : Bool) (msg : String) : List Event :=
  if DEBUG then [Event.printOK msg] else []

/-- The test `args[0] == "h" || args[0] == "help" || args[0] == "-help" || args[0] == "-h"`. -/
def isHelpToken (a : String) : Bool :=
  a == "h" || a == "help" || a == "-help" || a == "-h"

/-- The test `args[0] == "v" || args[0] == "version" || args[0] == "-v" || args[0] == "-version"`. -/
def isVersionToken (a : String) : Bool :=
  a == "v" || a == "version" || a == "-v" || a == "-version"

/-- The loop `for i, arg := range args` of `parseArgsStdin`: every argument
that contains `stdinReplace` is overwritten by the replaced string. -/
def replaceArgs (stdinReplace pipeIn : String) (args : List String) : List String :=
  args.map (fun arg =>
    if Contains arg stdinReplace then ReplaceAll arg stdinReplace pipeIn else arg)

/-- Source `parseArgsStdin(stdinReplace, usage string) []string`. -/
def parseArgsStdin (os : Proc) (stdinReplace usage : String) : Run (List String) :=
  let t0 := debugEcho os.DEBUG ("stdinReplace: " ++ stdinReplace ++ "\n")
  let args := os.Args
  match os.StdinStat with
  | .error err => ⟨t0, .panicked err⟩
  | .ok hasPipe =>
    if args.length = 1 ∧ hasPipe = false then
      let arg0 := args.headD ""
      if isHelpToken arg0 then
        ⟨t0 ++ [.print usage], .exit 0⟩
      else if isVersionToken arg0 then
        match os.ReadBuildInfo with
        | none => ⟨t0 ++ [.printErr "failed to read build info"], .exit 1⟩
        | some bi =>
          ⟨t0 ++ [.print ("version: " ++ bi.MainVersion ++ ", go version: " ++ bi.GoVersion
              ++ ", checksum: " ++ bi.MainSum ++ "\n")], .exit 0⟩
      else
        ⟨t0 ++ [.printErr "found no prompt, set args or pipe in some string\n", .print usage],
          .exit 1⟩
    else if hasPipe = false then
      ⟨t0, .ret args⟩
    else
      match os.StdinReadAll with
      | (_, some err) => ⟨t0 ++ [.printErr ("failed to read stdin: " ++ err)], .exit 1⟩
      | (pipeIn, none) =>
        let args1 := if args.length = 1 then args ++ Split pipeIn " " else args
        let args2 := replaceArgs stdinReplace pipeIn args1
        ⟨t0 ++ debugEcho os.DEBUG ("args: " ++ fmtStrings args2 ++ "\n"), .ret args2⟩

/-! ## `Setup` -/

/-- The composite literal `cmq := ChatModelQuerier{...}` of `Setup`; `client`
is the address of the `http.Client{}` created just before. -/
def newChatModelQuerier (flags : flagSet) (home : String) : ChatModelQuerier :=
  { SystemPrompt := "You are an assistent for a CLI interface. Answer concisely and informatively. Prefer markdown if possible."
    Raw := flags.printRaw
    Url := "https://api.openai.com/v1/chat/completions"
    ReplyMode := flags.replyMode
    home := home
    client := some {} }

/-- The composite literal `pq := PhotoQuerier{...}` of `Setup`. -/
def newPhotoQuerier (flags : flagSet) : PhotoQuerier :=
  { PhotoDir := flags.pictureDir
    PhotoPrefix := flags.picturePrefix
    PromptFormat := "I NEED to test how the tool works with extremely simple prompts. DO NOT add any detail, just use it AS-IS: '%v'"
    url := "https://api.openai.com/v1/images/generations"
    raw := flags.printRaw
    client := some {} }

/-- Source `Setup(usage string) (string, ChatModelQuerier, PhotoQuerier, []string)`.

`flags` is the value returned by `setupFlags(defaultFlags)` (the parsed
command line), `homedirConfig` the update that the config-file step applies to
the two descriptors passed by pointer, and `render` the `%v` rendering of the
chat descriptor; these three are declared outside `setup.go`. -/
def Setup (os : Proc) (flags : flagSet)
    (homedirConfig : ChatModelQuerier × PhotoQuerier → ChatModelQuerier × PhotoQuerier)
    (render : ChatModelQuerier → String) (usage : String) :
    Run (String × ChatModelQuerier × PhotoQuerier × List String) :=
  let defaults := defaultFlags os.HOME
  let API_KEY := os.OPENAI_API_KEY
  if API_KEY = "" then
    ⟨[.printErr "OPENAI_API_KEY environment variable not set\n"], .exit 1⟩
  else
    let home := os.UserHomeDir.1
    let t1 : List Event := match os.UserHomeDir.2 with
      | some err => [.printErr ("failed to get home dir: " ++ err ++ "\n")]
      | none => []
    let cmq := newChatModelQuerier flags home
    let pq := newPhotoQuerier flags
    let (cmq, pq) := homedirConfig (cmq, pq)
    -- Flag overrides homedirConfig
    let cmq := if flags.chatModel ≠ defaults.chatModel then { cmq with Model := flags.chatModel } else cmq
    let cmq := if flags.printRaw then { cmq with Raw := true } else cmq
    let pq := if flags.photoModel ≠ defaults.photoModel then { pq with Model := flags.photoModel } else pq
    let pq := if flags.picturePrefix ≠ defaults.picturePrefix then
      { pq with PhotoPrefix := flags.picturePrefix } else pq
    let pq := if flags.pictureDir ≠ defaults.pictureDir then { pq with PhotoDir := flags.pictureDir } else pq
    let t2 := debugEcho os.DEBUG ("chatModel: " ++ render cmq ++ "\n")
    let r := parseArgsStdin os flags.stdinReplace usage
    match r.outcome with
    | .ret args => ⟨t1 ++ t2 ++ r.trace, .ret (API_KEY, cmq, pq, args)⟩
    | .exit code => ⟨t1 ++ t2 ++ r.trace, .exit code⟩
    | .panicked err => ⟨t1 ++ t2 ++ r.trace, .panicked err⟩


/-! ## Specification-side definition -/

/-- The string described by claim C10: `p` before `x`, between every two
runes of `x` and after `x`, i.e. the pieces `""`, the runes of `x` one by one,
`""`, joined by `p`. -/
def spread (p x : String) : String :=
  ⟨List.intercalate p.data ([] :: (x.data.map (fun c => [c]) ++ [[]]))⟩

/-! ## Sample process states -/

/-- A process whose standard input is not a pipe, started with `args`. -/
def procNoPipe (DEBUG : Bool) (args : List String) : Proc where
  HOME := "/home/u"
  OPENAI_API_KEY := "sk-test"
  DEBUG := DEBUG
  UserHomeDir := ("/home/u", none)
  Args := args
  StdinStat := .ok false
  StdinReadAll := ("", none)
  ReadBuildInfo := none

/-- A process started with `args` whose standard input is a pipe that
delivers `pipeIn`. -/
def procPipe (DEBUG : Bool) (args : List String) (pipeIn : String) : Proc where
  HOME := "/home/u"
  OPENAI_API_KEY := "sk-test"
  DEBUG := DEBUG
  UserHomeDir := ("/home/u", none)
  Args := args
  StdinStat := .ok true
  StdinReadAll := (pipeIn, none)
  ReadBuildInfo := none

/-- Flags that all differ from `defaultFlags` in the four string options. -/
def customFlags : flagSet where
  chatModel := "gpt-3.5-turbo"
  photoModel := "dall-e-2"
  picturePrefix := "pic"
  pictureDir := "/tmp/out"
  stdinReplace := ""
  printRaw := false
  replyMode := false

/-- The default flags of the home `/home/u` with raw output and reply mode
switched on. -/
def boolFlags : flagSet :=
  { defaultFlags "/home/u" with printRaw := true, replyMode := true }

/-- A config-file step that writes every configurable field of the two
descriptors. -/
def overwritingConfig (x : ChatModelQuerier × PhotoQuerier) :
    ChatModelQuerier × PhotoQuerier :=
  ({ x.1 with Model := "file-chat-model", Raw := false, ReplyMode := false },
   { x.2 with Model := "file-photo-model", PhotoDir := "/file/dir", PhotoPrefix := "file",
              raw := false })

/-! ## The string functions on concrete inputs -/

theorem Split_examples :
    Split "a b c" " " = ["a", "b", "c"] ∧ Split "a  b " " " = ["a", "", "b", ""] ∧
    Split "" " " = [""] ∧ Split "abc" " " = ["abc"] := by
  decide

theorem ReplaceAll_examples :
    ReplaceAll "@@" "@@" "hello world" = "hello world" ∧
    ReplaceAll "x@@y@@" "@@" "in" = "xinyin" ∧
    ReplaceAll "aaa" "aa" "b" = "ba" ∧
    ReplaceAll "abc" "zz" "in" = "abc" ∧
    ReplaceAll "ab" "" "X" = "XaXbX" ∧
    ReplaceAll "" "" "X" = "X" := by
  decide

theorem Contains_examples :
    Contains "abc" "bc" = true ∧ Contains "abc" "" = true ∧ Contains "" "" = true ∧
    Contains "abc" "cb" = false ∧ Contains "" "a" = false := by
  decide

/-! ## Lemmas on the string functions -/

theorem containsL_nil (s : List Char) : containsL s [] = true := by
  cases s <;> simp [containsL, hasPrefixL]

theorem replaceGo_of_not_contains (old new : List Char) :
    ∀ s : List Char, containsL s old = false → replaceGo old new 0 s = s := by
  intro s
  induction s with
  | nil => intro _; simp [replaceGo]
  | cons c cs ih =>
    intro h
    simp only [containsL, Bool.or_eq_false_iff] at h
    simp [replaceGo, h.1, ih h.2]

theorem replaceAllL_of_not_contains (s old new : List Char)
    (h : containsL s old = false) : replaceAllL s old new = s := by
  unfold replaceAllL
  by_cases h1 : old = new
  · simp [h1]
  · by_cases h2 : old = []
    · rw [h2, containsL_nil] at h
      cases h
    · simp [h1, h2, replaceGo_of_not_contains old new s h]

theorem ReplaceAll_of_not_Contains (s old new : String)
    (h : Contains s old = false) : ReplaceAll s old new = s := by
  unfold ReplaceAll
  unfold Contains at h
  rw [replaceAllL_of_not_contains _ _ _ h]

theorem replaceArgs_eq_map (t p : String) (args : List String) :
    replaceArgs t p args = args.map (fun x => ReplaceAll x t p) := by
  unfold replaceArgs
  apply List.map_congr_left
  intro x _
  by_cases h : Contains x t = true
  · simp [h]
  · simp only [Bool.not_eq_true] at h
    simp [h, ReplaceAll_of_not_Contains x t p h]

theorem replaceArgs_of_not_Contains (t p : String) (args : List String)
    (h : ∀ x ∈ args, Contains x t = false) : replaceArgs t p args = args := by
  unfold replaceArgs
  conv => rhs; rw [← List.map_id args]
  apply List.map_congr_left
  intro x hx
  simp [h x hx]


theorem intercalate_cons_cons (p a b : List Char) (l : List (List Char)) :
    List.intercalate p (a :: b :: l) = a ++ p ++ List.intercalate p (b :: l) := by
  simp [List.intercalate, List.intersperse]

theorem intercalate_runes (p : List Char) :
    ∀ s : List Char,
      List.intercalate p (s.map (fun c => [c]) ++ [[]]) = replaceEmptyGo p s := by
  intro s
  induction s with
  | nil => simp [List.intercalate, List.intersperse, replaceEmptyGo]
  | cons c cs ih =>
    cases hcs : cs.map (fun c => [c]) ++ [[]] with
    | nil => simp at hcs
    | cons b l =>
      rw [hcs] at ih
      simp only [List.map_cons, List.cons_append, hcs, intercalate_cons_cons, ih, replaceEmptyGo]
      simp

theorem replaceAllL_empty (p s : List Char) (hp : p ≠ []) :
    replaceAllL s [] p = List.intercalate p ([] :: (s.map (fun c => [c]) ++ [[]])) := by
  have h1 : ¬ (([] : List Char) = p) := fun h => hp h.symm
  cases hcs : s.map (fun c => [c]) ++ [[]] with
  | nil => simp at hcs
  | cons b l =>
    rw [intercalate_cons_cons, ← hcs, intercalate_runes]
    simp [replaceAllL, h1]

theorem replaceEmptyGo_length (p : List Char) :
    ∀ s : List Char, (replaceEmptyGo p s).length = s.length + s.length * p.length := by
  intro s
  induction s with
  | nil => simp [replaceEmptyGo]
  | cons c cs ih =>
    simp only [replaceEmptyGo, List.length_cons, List.length_append, ih]
    ring

theorem ReplaceAll_empty (p x : String) (hp : p ≠ "") : ReplaceAll x "" p = spread p x := by
  have hp2 : p.data ≠ [] := by
    intro h
    apply hp
    cases p
    simp_all
  unfold ReplaceAll spread
  rw [show ("" : String).data = [] from rfl, replaceAllL_empty _ _ hp2]

theorem spread_length (p x : String) :
    (spread p x).length = x.length + (x.length + 1) * p.length := by
  unfold spread
  cases hcs : x.data.map (fun c => [c]) ++ [[]] with
  | nil => simp at hcs
  | cons b l =>
    rw [intercalate_cons_cons, ← hcs, intercalate_runes]
    simp only [String.length, List.nil_append, List.length_append, replaceEmptyGo_length]
    ring

theorem spread_ne (p x : String) (hp : p ≠ "") : spread p x ≠ x := by
  intro h
  have hl := spread_length p x
  rw [h] at hl
  have hp2 : 0 < p.length := by
    cases p with
    | mk d =>
      cases d with
      | nil => exact absurd rfl hp
      | cons c cs => simp [String.length]
  have : 0 < (x.length + 1) * p.length := Nat.mul_pos (Nat.succ_pos _) hp2
  omega

/-- The pieces of a split on `" "` joined by blanks give the string back. -/
theorem splitGo_space_join :
    ∀ (s cur : List Char),
      List.intercalate [' '] (splitGo [' '] 0 cur s) = cur.reverse ++ s := by
  intro s
  induction s with
  | nil => intro cur; simp [splitGo, List.intercalate, List.intersperse]
  | cons c cs ih =>
    intro cur
    by_cases hc : c = ' '
    · subst hc
      have h0 := ih []
      cases hsp : splitGo [' '] 0 [] cs with
      | nil =>
        rw [hsp] at h0
        simp [List.intercalate, List.intersperse] at h0
        subst h0
        simp [splitGo] at hsp
      | cons b l =>
        rw [hsp] at h0
        simp only [splitGo, hasPrefixL, decide_True, Bool.and_self, if_true, List.length_singleton,
          Nat.sub_self, hsp, intercalate_cons_cons, h0]
        simp
    · simp only [splitGo, hasPrefixL, hc, decide_False, Bool.false_and, Bool.false_eq_true, if_false]
      rw [ih (c :: cur)]
      simp


theorem splitGo_space_no_blank :
    ∀ (s cur : List Char), ' ' ∉ cur → ∀ piece ∈ splitGo [' '] 0 cur s, ' ' ∉ piece := by
  intro s
  induction s with
  | nil =>
    intro cur hcur piece hp
    simp only [splitGo, List.mem_singleton] at hp
    subst hp
    simpa using hcur
  | cons c cs ih =>
    intro cur hcur piece hp
    by_cases hc : c = ' '
    · subst hc
      simp only [splitGo, hasPrefixL, decide_True, Bool.and_self, if_true, List.length_singleton,
        Nat.sub_self, List.mem_cons] at hp
      rcases hp with hp | hp
      · subst hp
        simpa using hcur
      · exact ih [] (by simp) piece hp
    · simp only [splitGo, hasPrefixL, hc, decide_False, Bool.false_and, Bool.false_eq_true,
        if_false] at hp
      refine ih (c :: cur) ?_ piece hp
      intro hmem
      rcases List.mem_cons.mp hmem with h | h
      · exact hc h.symm
      · exact hcur h

/-- The model of `strings.Split(p, " ")` is the split on single blanks: the
pieces joined by one blank give `p` back, and no piece contains a blank. -/
theorem Split_space_spec (p : String) :
    List.intercalate [' '] ((Split p " ").map String.data) = p.data ∧
    ∀ piece ∈ Split p " ", ' ' ∉ piece.data := by
  have hsep : (" " : String).data = [' '] := rfl
  have hne : ¬ ([' '] = ([] : List Char)) := by simp
  constructor
  · simp only [Split, splitL, hsep, hne, if_false, List.map_map]
    have : (String.data ∘ String.mk) = id := by funext l; rfl
    rw [this, List.map_id, splitGo_space_join]
    simp
  · intro piece hp
    simp only [Split, splitL, hsep, hne, if_false, List.mem_map] at hp
    obtain ⟨l, hl, rfl⟩ := hp
    exact splitGo_space_no_blank p.data [] (by simp) l hl


/-! ## `returnNonDefault` -/

/-- C1: `returnNonDefault a b d` returns an error, and then the message
"values are mutually exclusive", if and only if `a ≠ d` and `b ≠ d`; in every
other case the error is nil and the value is the one of `a`, `b` that differs
from `d`, or `d` when neither differs. -/
theorem returnNonDefault_spec {T : Type} [DecidableEq T] (a b d : T) :
    ((returnNonDefault a b d).2 ≠ none ↔ a ≠ d ∧ b ≠ d) ∧
    ((returnNonDefault a b d).2 = some "values are mutually exclusive" ↔ a ≠ d ∧ b ≠ d) ∧
    (¬ (a ≠ d ∧ b ≠ d) →
      (returnNonDefault a b d).2 = none ∧
      (a ≠ d → (returnNonDefault a b d).1 = a) ∧
      (b ≠ d → (returnNonDefault a b d).1 = b) ∧
      (a = d → b = d → (returnNonDefault a b d).1 = d)) := by
  unfold returnNonDefault
  by_cases ha : a = d <;> by_cases hb : b = d <;> simp [ha, hb]

/-! ## The single-argument branch without piped input -/

theorem isHelpToken_iff (a : String) :
    isHelpToken a = true ↔ a ∈ ["h", "help", "-h", "-help"] := by
  simp only [isHelpToken, Bool.or_eq_true, beq_iff_eq, List.mem_cons, List.mem_singleton,
    List.not_mem_nil, or_false]
  tauto

theorem isVersionToken_iff (a : String) :
    isVersionToken a = true ↔ a ∈ ["v", "version", "-v", "-version"] := by
  simp only [isVersionToken, Bool.or_eq_true, beq_iff_eq, List.mem_cons, List.mem_singleton,
    List.not_mem_nil, or_false]
  tauto

theorem isHelpToken_of_version (a : String) (ha : a ∈ ["v", "version", "-v", "-version"]) :
    isHelpToken a = false := by
  simp only [List.mem_cons, List.mem_singleton, List.not_mem_nil, or_false] at ha
  rcases ha with h | h | h | h <;> subst h <;> decide

/-- With no piped input and exactly one argument `a`, `parseArgsStdin` takes
the branch guarded by `len(args) == 1 && !hasPipe`, every path of which ends in
`os.Exit`. -/
theorem parseArgsStdin_single_no_pipe (os : Proc) (stdinReplace usage a : String)
    (hpipe : os.StdinStat = .ok false) (hargs : os.Args = [a]) :
    parseArgsStdin os stdinReplace usage
      = (if isHelpToken a then
          (⟨debugEcho os.DEBUG ("stdinReplace: " ++ stdinReplace ++ "\n") ++ [.print usage],
            .exit 0⟩ : Run (List String))
        else if isVersionToken a then
          match os.ReadBuildInfo with
          | none =>
            ⟨debugEcho os.DEBUG ("stdinReplace: " ++ stdinReplace ++ "\n")
              ++ [.printErr "failed to read build info"], .exit 1⟩
          | some bi =>
            ⟨debugEcho os.DEBUG ("stdinReplace: " ++ stdinReplace ++ "\n")
              ++ [.print ("version: " ++ bi.MainVersion ++ ", go version: " ++ bi.GoVersion
                ++ ", checksum: " ++ bi.MainSum ++ "\n")], .exit 0⟩
        else
          ⟨debugEcho os.DEBUG ("stdinReplace: " ++ stdinReplace ++ "\n")
            ++ [.printErr "found no prompt, set args or pipe in some string\n", .print usage],
            .exit 1⟩) := by
  simp [parseArgsStdin, hpipe, hargs]

/-! ## `parseArgsStdin` without piped input -/

/-- C5 (as the code behaves): with no piped input and no arguments at all,
`parseArgsStdin` returns the empty argument list; it writes nothing to standard
output, reports no error and does not terminate the process. The "no prompt"
error followed by the usage text and exit code 1 is the answer to exactly one
argument that is neither a help nor a version token. -/
theorem parseArgsStdin_no_args (os : Proc) (stdinReplace usage : String)
    (hpipe : os.StdinStat = .ok false) :
    (os.Args = [] →
      parseArgsStdin os stdinReplace usage
        = ⟨debugEcho os.DEBUG ("stdinReplace: " ++ stdinReplace ++ "\n"), .ret []⟩ ∧
      (parseArgsStdin os stdinReplace usage).printed = [] ∧
      (parseArgsStdin os stdinReplace usage).errors = []) ∧
    (∀ a, os.Args = [a] → isHelpToken a = false → isVersionToken a = false →
      parseArgsStdin os stdinReplace usage
        = ⟨debugEcho os.DEBUG ("stdinReplace: " ++ stdinReplace ++ "\n")
            ++ [.printErr "found no prompt, set args or pipe in some string\n", .print usage],
           .exit 1⟩) := by
  constructor
  · intro hargs
    have h : parseArgsStdin os stdinReplace usage
        = ⟨debugEcho os.DEBUG ("stdinReplace: " ++ stdinReplace ++ "\n"), .ret []⟩ := by
      simp [parseArgsStdin, hpipe, hargs]
    rw [h]
    cases os.DEBUG <;> simp [Run.printed, Run.errors, debugEcho]
  · intro a hargs hh hv
    simp [parseArgsStdin, hpipe, hargs, hh, hv]

/-- C5, witness: a process without pipe and without arguments gets the empty
list back, and a lone `query` is answered by the "no prompt" error. -/
theorem parseArgsStdin_no_args_witness :
    (procNoPipe false []).StdinStat = .ok false ∧
    parseArgsStdin (procNoPipe false []) "" "usage: clai" = ⟨[], .ret []⟩ ∧
    parseArgsStdin (procNoPipe false ["query"]) "" "usage: clai"
      = ⟨[.printErr "found no prompt, set args or pipe in some string\n", .print "usage: clai"],
         .exit 1⟩ :=
  ⟨rfl, ((parseArgsStdin_no_args (procNoPipe false []) "" "usage: clai" rfl).1 rfl).1,
    (parseArgsStdin_no_args (procNoPipe false ["query"]) "" "usage: clai" rfl).2 "query" rfl
      (by decide) (by decide)⟩

/-- C5, as stated, fails: with no piped input and no arguments the call
returns `[]`; it neither exits with code 1 nor prints the usage text. -/
theorem parseArgsStdin_no_args_counterexample :
    (procNoPipe false []).StdinStat = .ok false ∧ (procNoPipe false []).Args = [] ∧
    (parseArgsStdin (procNoPipe false []) "" "usage: clai").outcome = .ret [] ∧
    (parseArgsStdin (procNoPipe false []) "" "usage: clai").outcome ≠ .exit 1 ∧
    (parseArgsStdin (procNoPipe false []) "" "usage: clai").printed = [] ∧
    (parseArgsStdin (procNoPipe false []) "" "usage: clai").errors = [] := by
  refine ⟨rfl, rfl, ?_, ?_, ?_, ?_⟩ <;> decide

/-- C6 (as the code behaves): with no piped input, every argument list whose
length is not 1 (no argument, or two and more) is returned unchanged, and the
process is not terminated. A single argument is never returned, the process
exits with code 0 or 1: a help token prints the usage text and exits 0; a
version token prints the version line and exits 0 or, when the build info
cannot be read, reports that and exits 1; every other lone argument prints the
"no prompt" error and the usage text and exits 1. -/
theorem parseArgsStdin_no_pipe_returns_args (os : Proc) (stdinReplace usage : String)
    (hpipe : os.StdinStat = .ok false) :
    (os.Args.length ≠ 1 →
      parseArgsStdin os stdinReplace usage
        = ⟨debugEcho os.DEBUG ("stdinReplace: " ++ stdinReplace ++ "\n"), .ret os.Args⟩) ∧
    (∀ a, os.Args = [a] →
      (∀ res, (parseArgsStdin os stdinReplace usage).outcome ≠ .ret res) ∧
      ((parseArgsStdin os stdinReplace usage).outcome = .exit 0 ∨
        (parseArgsStdin os stdinReplace usage).outcome = .exit 1) ∧
      (a ∈ ["h", "help", "-h", "-help"] →
        parseArgsStdin os stdinReplace usage
          = ⟨debugEcho os.DEBUG ("stdinReplace: " ++ stdinReplace ++ "\n") ++ [.print usage],
             .exit 0⟩) ∧
      (a ∈ ["v", "version", "-v", "-version"] → ∀ bi, os.ReadBuildInfo = some bi →
        parseArgsStdin os stdinReplace usage
          = ⟨debugEcho os.DEBUG ("stdinReplace: " ++ stdinReplace ++ "\n")
              ++ [.print ("version: " ++ bi.MainVersion ++ ", go version: " ++ bi.GoVersion
                ++ ", checksum: " ++ bi.MainSum ++ "\n")],
             .exit 0⟩) ∧
      (a ∈ ["v", "version", "-v", "-version"] → os.ReadBuildInfo = none →
        parseArgsStdin os stdinReplace usage
          = ⟨debugEcho os.DEBUG ("stdinReplace: " ++ stdinReplace ++ "\n")
              ++ [.printErr "failed to read build info"],
             .exit 1⟩) ∧
      (a ∉ ["h", "help", "-h", "-help", "v", "version", "-v", "-version"] →
        parseArgsStdin os stdinReplace usage
          = ⟨debugEcho os.DEBUG ("stdinReplace: " ++ stdinReplace ++ "\n")
              ++ [.printErr "found no prompt, set args or pipe in some string\n", .print usage],
             .exit 1⟩)) := by
  refine ⟨fun hlen => by simp [parseArgsStdin, hpipe, hlen], ?_⟩
  intro a hargs
  have hrun := parseArgsStdin_single_no_pipe os stdinReplace usage a hpipe hargs
  refine ⟨?_, ?_, ?_, ?_, ?_, ?_⟩
  · intro res
    rw [hrun]
    cases isHelpToken a <;> cases isVersionToken a <;> cases os.ReadBuildInfo <;> simp
  · rw [hrun]
    cases isHelpToken a <;> cases isVersionToken a <;> cases os.ReadBuildInfo <;> simp
  · intro ha
    rw [hrun, (isHelpToken_iff a).mpr ha]
    rfl
  · intro ha bi hbi
    have hh : isHelpToken a = false := isHelpToken_of_version a ha
    rw [hrun, hh, (isVersionToken_iff a).mpr ha, hbi]
    rfl
  · intro ha hbi
    have hh : isHelpToken a = false := isHelpToken_of_version a ha
    rw [hrun, hh, (isVersionToken_iff a).mpr ha, hbi]
    rfl
  · intro ha
    have hh : isHelpToken a = false := by
      rw [← Bool.not_eq_true, isHelpToken_iff]
      intro h
      apply ha
      simp only [List.mem_cons, List.mem_singleton, List.not_mem_nil, or_false] at h ⊢
      tauto
    have hv : isVersionToken a = false := by
      rw [← Bool.not_eq_true, isVersionToken_iff]
      intro h
      apply ha
      simp only [List.mem_cons, List.mem_singleton, List.not_mem_nil, or_false] at h ⊢
      tauto
    rw [hrun, hh, hv]
    rfl

/-- C6, witness: two arguments without pipe come back unchanged, and the lone
argument `query` ends in the "no prompt" error and exit code 1. -/
theorem parseArgsStdin_no_pipe_returns_args_witness :
    (procNoPipe false ["query", "hello"]).StdinStat = .ok false ∧
    parseArgsStdin (procNoPipe false ["query", "hello"]) "" "usage: clai"
      = ⟨[], .ret ["query", "hello"]⟩ ∧
    parseArgsStdin (procNoPipe false ["query"]) "" "usage: clai"
      = ⟨[.printErr "found no prompt, set args or pipe in some string\n", .print "usage: clai"],
         .exit 1⟩ :=
  ⟨rfl,
    (parseArgsStdin_no_pipe_returns_args (procNoPipe false ["query", "hello"]) "" "usage: clai"
      rfl).1 (by decide),
    ((parseArgsStdin_no_pipe_returns_args (procNoPipe false ["query"]) "" "usage: clai"
      rfl).2 "query" rfl).2.2.2.2.2 (by decide)⟩

/-- C6, as stated, fails: the non-empty argument list `["query"]` is not a
help or version token, yet without piped input it is not returned: the process
prints the "no prompt" error and the usage text and exits with code 1. -/
theorem parseArgsStdin_single_arg_counterexample :
    (procNoPipe false ["query"]).StdinStat = .ok false ∧
    (procNoPipe false ["query"]).Args = ["query"] ∧
    isHelpToken "query" = false ∧ isVersionToken "query" = false ∧
    parseArgsStdin (procNoPipe false ["query"]) "" "usage: clai"
      = ⟨[.printErr "found no prompt, set args or pipe in some string\n", .print "usage: clai"],
         .exit 1⟩ ∧
    (parseArgsStdin (procNoPipe false ["query"]) "" "usage: clai").outcome ≠ .ret ["query"] := by
  refine ⟨rfl, rfl, ?_, ?_, ?_, ?_⟩ <;> decide

/-- C7 (as the code behaves): for every token `t` among `h`, `help`, `-h`,
`-help` and every usage string, with no piped input and the argument list
`[t]`, `parseArgsStdin` writes the usage text to standard output and terminates
with exit code 0; it reports no error and does not return. The usage text is
all of standard output when `DEBUG` is not truthy; when `DEBUG` is truthy it is
preceded by the diagnostic `stdinReplace: ...` of `ancli.PrintOK`. -/
theorem parseArgsStdin_help (os : Proc) (stdinReplace usage t : String)
    (hpipe : os.StdinStat = .ok false)
    (ht : t = "h" ∨ t = "help" ∨ t = "-h" ∨ t = "-help") (hargs : os.Args = [t]) :
    parseArgsStdin os stdinReplace usage
      = ⟨debugEcho os.DEBUG ("stdinReplace: " ++ stdinReplace ++ "\n") ++ [.print usage],
         .exit 0⟩ ∧
    (os.DEBUG = false → (parseArgsStdin os stdinReplace usage).stdout = [.print usage]) ∧
    (os.DEBUG = true →
      (parseArgsStdin os stdinReplace usage).stdout
        = [.printOK ("stdinReplace: " ++ stdinReplace ++ "\n"), .print usage]) ∧
    (parseArgsStdin os stdinReplace usage).printed = [usage] ∧
    (parseArgsStdin os stdinReplace usage).errors = [] ∧
    (parseArgsStdin os stdinReplace usage).outcome = .exit 0 := by
  have hh : isHelpToken t = true := by
    rcases ht with h | h | h | h <;> subst h <;> decide
  have h : parseArgsStdin os stdinReplace usage
      = ⟨debugEcho os.DEBUG ("stdinReplace: " ++ stdinReplace ++ "\n") ++ [.print usage],
         .exit 0⟩ := by
    simp [parseArgsStdin, hpipe, hargs, hh]
  rw [h]
  cases os.DEBUG <;> simp [Run.stdout, Run.printed, Run.errors, debugEcho]

/-- C7, witness: `help` without piped input puts the usage text on standard
output and exits 0; with `DEBUG` set the diagnostic comes first. -/
theorem parseArgsStdin_help_witness :
    (procNoPipe false ["help"]).StdinStat = .ok false ∧
    ("help" = "h" ∨ "help" = "help" ∨ "help" = "-h" ∨ "help" = "-help") ∧
    parseArgsStdin (procNoPipe false ["help"]) "" "usage: clai"
      = ⟨[.print "usage: clai"], .exit 0⟩ ∧
    (parseArgsStdin (procNoPipe false ["help"]) "" "usage: clai").stdout
      = [.print "usage: clai"] ∧
    (parseArgsStdin (procNoPipe true ["help"]) "" "usage: clai").stdout
      = [.printOK "stdinReplace: \n", .print "usage: clai"] :=
  ⟨rfl, by decide,
    (parseArgsStdin_help (procNoPipe false ["help"]) "" "usage: clai" "help" rfl (by decide) rfl).1,
    (parseArgsStdin_help (procNoPipe false ["help"]) "" "usage: clai" "help" rfl (by decide)
      rfl).2.1 rfl,
    (parseArgsStdin_help (procNoPipe true ["help"]) "" "usage: clai" "help" rfl (by decide)
      rfl).2.2.1 rfl⟩

/-- C7, as stated, fails: with `DEBUG` truthy, no piped input and the argument
list `["help"]`, standard output is not exactly the usage text: the diagnostic
`stdinReplace: ...` is written to it before the usage text. -/
theorem parseArgsStdin_help_debug_counterexample :
    (procNoPipe true ["help"]).StdinStat = .ok false ∧
    (procNoPipe true ["help"]).DEBUG = true ∧
    (procNoPipe true ["help"]).Args = ["help"] ∧
    (parseArgsStdin (procNoPipe true ["help"]) "" "usage: clai").stdout
      = [.printOK "stdinReplace: \n", .print "usage: clai"] ∧
    (parseArgsStdin (procNoPipe true ["help"]) "" "usage: clai").stdout
      ≠ [.print "usage: clai"] ∧
    (parseArgsStdin (procNoPipe true ["help"]) "" "usage: clai").outcome = .exit 0 := by
  refine ⟨rfl, rfl, rfl, ?_, ?_, ?_⟩ <;> decide

/-! ## `parseArgsStdin` with piped input -/

/-- With piped input that is read without error, `parseArgsStdin` returns:
the arguments, extended by the pieces of the piped text when there is exactly
one argument, after the replacement loop. -/
theorem parseArgsStdin_pipe (os : Proc) (stdinReplace usage pipeIn : String)
    (hpipe : os.StdinStat = .ok true) (hread : os.StdinReadAll = (pipeIn, none)) :
    parseArgsStdin os stdinReplace usage
      = ⟨debugEcho os.DEBUG ("stdinReplace: " ++ stdinReplace ++ "\n")
          ++ debugEcho os.DEBUG ("args: "
            ++ fmtStrings (replaceArgs stdinReplace pipeIn
                (if os.Args.length = 1 then os.Args ++ Split pipeIn " " else os.Args)) ++ "\n"),
         .ret (replaceArgs stdinReplace pipeIn
            (if os.Args.length = 1 then os.Args ++ Split pipeIn " " else os.Args))⟩ := by
  simp [parseArgsStdin, hpipe, hread]

/-- C8: for piped text `p`, a single argument `a` and a replacement token `t`
that occurs neither in `a` nor in any piece of `p` split on single blanks,
`parseArgsStdin` returns `a` followed by the pieces of `p` split on `" "`, in
order. -/
theorem parseArgsStdin_single_arg_appends_pipe (os : Proc) (t usage p a : String)
    (hpipe : os.StdinStat = .ok true) (hread : os.StdinReadAll = (p, none))
    (hargs : os.Args = [a]) (ha : Contains a t = false)
    (hp : ∀ x ∈ Split p " ", Contains x t = false) :
    (parseArgsStdin os t usage).outcome = .ret (a :: Split p " ") := by
  rw [parseArgsStdin_pipe os t usage p hpipe hread]
  have hw : (if os.Args.length = 1 then os.Args ++ Split p " " else os.Args)
      = a :: Split p " " := by simp [hargs]
  rw [hw, replaceArgs_of_not_Contains]
  intro x hx
  rcases List.mem_cons.mp hx with h | h
  · rw [h]; exact ha
  · exact hp x h

/-- C8, witness: piped `a b c` and the single argument `summarize:` give
`["summarize:", "a", "b", "c"]` when the token `@@` matches nothing. -/
theorem parseArgsStdin_single_arg_appends_pipe_witness :
    (procPipe false ["summarize:"] "a b c").StdinStat = .ok true ∧
    (procPipe false ["summarize:"] "a b c").StdinReadAll = ("a b c", none) ∧
    Contains "summarize:" "@@" = false ∧
    (∀ x ∈ Split "a b c" " ", Contains x "@@" = false) ∧
    (parseArgsStdin (procPipe false ["summarize:"] "a b c") "@@" "usage: clai").outcome
      = .ret ["summarize:", "a", "b", "c"] :=
  ⟨rfl, rfl, by decide, by decide,
    parseArgsStdin_single_arg_appends_pipe (procPipe false ["summarize:"] "a b c") "@@"
      "usage: clai" "a b c" "summarize:" rfl rfl rfl (by decide) (by decide)⟩

/-- C9: for piped text `p`, every argument list and every replacement token
`t` (in particular every non-empty one), the list returned by `parseArgsStdin`
is, element by element, `ReplaceAll(x, t, p)` for `x` ranging over the
arguments, extended by the pieces of `p` split on `" "` when there is exactly
one argument; so its length is that of the arguments when their number is not
1. -/
theorem parseArgsStdin_replaces_token (os : Proc) (t usage p : String)
    (hpipe : os.StdinStat = .ok true) (hread : os.StdinReadAll = (p, none)) :
    (parseArgsStdin os t usage).outcome
      = .ret ((if os.Args.length = 1 then os.Args ++ Split p " " else os.Args).map
          (fun x => ReplaceAll x t p)) ∧
    (os.Args.length ≠ 1 →
      ∃ res, (parseArgsStdin os t usage).outcome = .ret res ∧ res.length = os.Args.length) := by
  rw [parseArgsStdin_pipe os t usage p hpipe hread, replaceArgs_eq_map]
  refine ⟨rfl, fun hlen => ⟨_, rfl, ?_⟩⟩
  simp [hlen]

/-- C9, witness: piped `hello world`, the single argument `@@` and the token
`@@` give a list whose first element is `hello world`. -/
theorem parseArgsStdin_replaces_token_witness :
    (procPipe false ["@@"] "hello world").StdinStat = .ok true ∧
    (procPipe false ["@@"] "hello world").StdinReadAll = ("hello world", none) ∧
    (parseArgsStdin (procPipe false ["@@"] "hello world") "@@" "usage: clai").outcome
      = .ret ["hello world", "hello", "world"] :=
  ⟨rfl, rfl,
    (parseArgsStdin_replaces_token (procPipe false ["@@"] "hello world") "@@" "usage: clai"
      "hello world" rfl rfl).1⟩

/-- C10: with the built-in default replacement token (the empty string) and a
non-empty piped text `p`, every argument `x` (the pieces of `p` appended in the
single-argument case included) is replaced by the string that has `p` before
`x`, between every two runes of `x` and after `x`: with `k` runes in `x` that is
`k + 1` copies of `p`, so no argument is returned as supplied. -/
theorem parseArgsStdin_empty_token (os : Proc) (usage p : String)
    (hpipe : os.StdinStat = .ok true) (hread : os.StdinReadAll = (p, none)) (hp : p ≠ "") :
    (defaultFlags os.HOME).stdinReplace = "" ∧
    ∃ res, (parseArgsStdin os (defaultFlags os.HOME).stdinReplace usage).outcome = .ret res ∧
      res = (if os.Args.length = 1 then os.Args ++ Split p " " else os.Args).map (spread p) ∧
      List.Forall₂ (fun x y => y ≠ x ∧ y.length = x.length + (x.length + 1) * p.length)
        (if os.Args.length = 1 then os.Args ++ Split p " " else os.Args) res := by
  refine ⟨rfl, _, ?_, rfl, ?_⟩
  · rw [parseArgsStdin_pipe os _ usage p hpipe hread, replaceArgs_eq_map]
    show Outcome.ret (List.map (fun x => ReplaceAll x "" p) _) = _
    congr 1
    apply List.map_congr_left
    intro x _
    exact ReplaceAll_empty p x hp
  · rw [List.forall₂_map_right_iff]
    apply List.forall₂_same.mpr
    intro x _
    exact ⟨spread_ne p x hp, spread_length p x⟩

/-- C10, witness: piped `a b`, the single argument `q` and the default (empty)
token: all three resulting arguments are altered. -/
theorem parseArgsStdin_empty_token_witness :
    (procPipe false ["q"] "a b").StdinStat = .ok true ∧
    (procPipe false ["q"] "a b").StdinReadAll = ("a b", none) ∧
    ("a b" : String) ≠ "" ∧
    (parseArgsStdin (procPipe false ["q"] "a b")
        (defaultFlags (procPipe false ["q"] "a b").HOME).stdinReplace "usage: clai").outcome
      = .ret ["a bqa b", "a baa b", "a bba b"] := by
  obtain ⟨_, res, h1, h2, _⟩ :=
    parseArgsStdin_empty_token (procPipe false ["q"] "a b") "usage: clai" "a b" rfl rfl
      (by decide)
  refine ⟨rfl, rfl, by decide, ?_⟩
  rw [h1, h2]
  decide

/-! ## `Setup` -/

/-- C2: for the chat model, photo model, picture prefix and picture directory
and for every update made by the config-file step: when `Setup` returns (the
API key is set and `parseArgsStdin` returns), a flag value different from its
entry in `defaultFlags` is exactly the value of the corresponding field of the
returned descriptor. -/
theorem Setup_flag_overrides_config (os : Proc) (flags : flagSet)
    (homedirConfig : ChatModelQuerier × PhotoQuerier → ChatModelQuerier × PhotoQuerier)
    (render : ChatModelQuerier → String) (usage : String) (args : List String)
    (hkey : os.OPENAI_API_KEY ≠ "")
    (hargs : (parseArgsStdin os flags.stdinReplace usage).outcome = .ret args) :
    ∃ cmq pq,
      (Setup os flags homedirConfig render usage).outcome
        = .ret (os.OPENAI_API_KEY, cmq, pq, args) ∧
      (flags.chatModel ≠ (defaultFlags os.HOME).chatModel → cmq.Model = flags.chatModel) ∧
      (flags.photoModel ≠ (defaultFlags os.HOME).photoModel → pq.Model = flags.photoModel) ∧
      (flags.picturePrefix ≠ (defaultFlags os.HOME).picturePrefix →
        pq.PhotoPrefix = flags.picturePrefix) ∧
      (flags.pictureDir ≠ (defaultFlags os.HOME).pictureDir → pq.PhotoDir = flags.pictureDir) := by
  simp only [Setup, hkey, if_false, hargs]
  refine ⟨_, _, rfl, ?_, ?_, ?_, ?_⟩ <;> intro h <;> split_ifs <;> rfl

/-- C2, witness: four flags that differ from their defaults win over a config
file that writes every field. -/
theorem Setup_flag_overrides_config_witness :
    (procNoPipe false ["query", "hi"]).OPENAI_API_KEY ≠ "" ∧
    (parseArgsStdin (procNoPipe false ["query", "hi"]) customFlags.stdinReplace
      "usage: clai").outcome = .ret ["query", "hi"] ∧
    ∃ cmq pq,
      (Setup (procNoPipe false ["query", "hi"]) customFlags overwritingConfig (fun _ => "")
        "usage: clai").outcome = .ret ("sk-test", cmq, pq, ["query", "hi"]) ∧
      cmq.Model = "gpt-3.5-turbo" ∧ pq.Model = "dall-e-2" ∧
      pq.PhotoPrefix = "pic" ∧ pq.PhotoDir = "/tmp/out" := by
  obtain ⟨cmq, pq, h, h1, h2, h3, h4⟩ :=
    Setup_flag_overrides_config (procNoPipe false ["query", "hi"]) customFlags overwritingConfig
      (fun _ => "") "usage: clai" ["query", "hi"] (by decide) (by decide)
  exact ⟨by decide, by decide, cmq, pq, h, h1 (by decide), h2 (by decide), h3 (by decide),
    h4 (by decide)⟩

/-- Where the boolean fields of the returned descriptors come from: when
`Setup` returns, `cmq.Raw` is true if the raw-output flag is set; `pq.raw` and
`cmq.ReplyMode` are assigned from the flags only in the literals built before
the config-file step, and the returned fields are those the step left. -/
theorem Setup_bool_fields (os : Proc) (flags : flagSet)
    (homedirConfig : ChatModelQuerier × PhotoQuerier → ChatModelQuerier × PhotoQuerier)
    (render : ChatModelQuerier → String) (usage : String) (args : List String)
    (hkey : os.OPENAI_API_KEY ≠ "")
    (hargs : (parseArgsStdin os flags.stdinReplace usage).outcome = .ret args) :
    ∃ cmq pq,
      (Setup os flags homedirConfig render usage).outcome
        = .ret (os.OPENAI_API_KEY, cmq, pq, args) ∧
      (flags.printRaw = true → cmq.Raw = true) ∧
      (newPhotoQuerier flags).raw = flags.printRaw ∧
      (newChatModelQuerier flags os.UserHomeDir.1).ReplyMode = flags.replyMode ∧
      pq.raw
        = (homedirConfig (newChatModelQuerier flags os.UserHomeDir.1, newPhotoQuerier flags)).2.raw ∧
      cmq.ReplyMode
        = (homedirConfig
            (newChatModelQuerier flags os.UserHomeDir.1, newPhotoQuerier flags)).1.ReplyMode := by
  simp only [Setup, hkey, if_false, hargs]
  refine ⟨_, _, rfl, ?_, rfl, rfl, ?_, ?_⟩
  · intro h; split_ifs <;> rfl
  · split_ifs <;> rfl
  · split_ifs <;> rfl

/-- C3, the code at the failing input: both boolean flags are set to true and
the config-file step writes `false` into the boolean fields of the two
descriptors. `Setup` returns with `cmq.Raw` true, which it re-asserts after the
config-file step, but with `pq.raw` and `cmq.ReplyMode` false: for these two
the flag does not win over what the config-file step wrote. -/
theorem Setup_bool_flags_overwritten :
    boolFlags.printRaw = true ∧ boolFlags.replyMode = true ∧
    ∃ cmq pq,
      (Setup (procNoPipe false ["query", "hi"]) boolFlags overwritingConfig (fun _ => "")
        "usage: clai").outcome = .ret ("sk-test", cmq, pq, ["query", "hi"]) ∧
      cmq.Raw = true ∧ pq.raw = false ∧ cmq.ReplyMode = false :=
  ⟨rfl, rfl, _, _, rfl, rfl, rfl, rfl⟩

/-- C4 (as the code behaves): when `Setup` returns and the config-file step
leaves the descriptors unchanged, a picture prefix or picture directory flag
equal to its built-in default leaves the built-in default of `defaultFlags` in
`pq.PhotoPrefix` (`clai`) and `pq.PhotoDir` (`$HOME/Pictures`); for the chat
model and the photo model `Setup` writes the `Model` field only when the flag
differs from the default, so with the flag at its default the field stays as
the struct literal left it, the empty string. -/
theorem Setup_defaults (os : Proc) (flags : flagSet)
    (homedirConfig : ChatModelQuerier × PhotoQuerier → ChatModelQuerier × PhotoQuerier)
    (render : ChatModelQuerier → String) (usage : String) (args : List String)
    (hkey : os.OPENAI_API_KEY ≠ "")
    (hargs : (parseArgsStdin os flags.stdinReplace usage).outcome = .ret args)
    (hcfg : ∀ x, homedirConfig x = x) :
    ∃ cmq pq,
      (Setup os flags homedirConfig render usage).outcome
        = .ret (os.OPENAI_API_KEY, cmq, pq, args) ∧
      (flags.picturePrefix = (defaultFlags os.HOME).picturePrefix → pq.PhotoPrefix = "clai") ∧
      (flags.pictureDir = (defaultFlags os.HOME).pictureDir →
        pq.PhotoDir = os.HOME ++ "/Pictures") ∧
      (flags.chatModel = (defaultFlags os.HOME).chatModel → cmq.Model = "") ∧
      (flags.photoModel = (defaultFlags os.HOME).photoModel → pq.Model = "") := by
  simp only [Setup, hkey, if_false, hargs, hcfg]
  refine ⟨_, _, rfl, ?_, ?_, ?_, ?_⟩
  · intro h; split_ifs <;> first | rfl | exact h
  · intro h; split_ifs <;> first | rfl | exact h
  · intro h; split_ifs <;> first | rfl | contradiction
  · intro h; split_ifs <;> first | rfl | contradiction

/-- C4, witness: all flags at their defaults and no value from the config
file. -/
theorem Setup_defaults_witness :
    (procNoPipe false ["query", "hi"]).OPENAI_API_KEY ≠ "" ∧
    (parseArgsStdin (procNoPipe false ["query", "hi"]) (defaultFlags "/home/u").stdinReplace
      "usage: clai").outcome = .ret ["query", "hi"] ∧
    ∃ cmq pq,
      (Setup (procNoPipe false ["query", "hi"]) (defaultFlags "/home/u") id (fun _ => "")
        "usage: clai").outcome = .ret ("sk-test", cmq, pq, ["query", "hi"]) ∧
      pq.PhotoPrefix = "clai" ∧ pq.PhotoDir = "/home/u/Pictures" ∧
      cmq.Model = "" ∧ pq.Model = "" := by
  obtain ⟨cmq, pq, h, h1, h2, h3, h4⟩ :=
    Setup_defaults (procNoPipe false ["query", "hi"]) (defaultFlags "/home/u") id
      (fun _ => "") "usage: clai" ["query", "hi"] (by decide) (by decide) (fun _ => rfl)
  exact ⟨by decide, by decide, cmq, pq, h, h1 rfl, h2 rfl, h3 rfl, h4 rfl⟩

/-- C4, as stated, fails: with every flag at its built-in default and a
config-file step that changes nothing, the returned chat and photo descriptors
have the empty `Model`, not `gpt-4-turbo-preview` and `dall-e-3`. -/
theorem Setup_defaults_counterexample :
    (defaultFlags "/home/u").chatModel = "gpt-4-turbo-preview" ∧
    (defaultFlags "/home/u").photoModel = "dall-e-3" ∧
    ∃ cmq pq,
      (Setup (procNoPipe false ["query", "hi"]) (defaultFlags "/home/u") id (fun _ => "")
        "usage: clai").outcome = .ret ("sk-test", cmq, pq, ["query", "hi"]) ∧
      cmq.Model = "" ∧ cmq.Model ≠ "gpt-4-turbo-preview" ∧
      pq.Model = "" ∧ pq.Model ≠ "dall-e-3" :=
  ⟨rfl, rfl, _, _, rfl, rfl, by decide, rfl, by decide⟩

end Clai
